import Mathlib

/-!
Verification of the `tools-verible` build scripts.

The repository builds the apio Verible package for one platform per
invocation, through two near-duplicate scripts: `src/build.py` (the
flat-text variant) and `src/.github/workflows/build.py` (the JSON variant).
Both are embedded below from their sources.

Strings are Lean `String`s; filesystem paths are modelled as lists of path
components; a Python dict lookup is an `Option`-valued function, `none`
standing for `KeyError`.
-/

namespace ToolsVerible

/-- The pinned upstream Verible release tag, src/build.py line 31. -/
def VERIBLE_TAG : String := "v0.0-3862-g936dfb1d"

/-- Embeds the frozen `PlatformInfo` dataclass of src/build.py lines 43-51. -/
structure PlatformInfo where
  verible_base_filename : String
  verible_ext : String
  verible_wrapper_dir : String
  unarchive_cmd : List String
deriving DecidableEq, Repr

/-- Embeds the platform registry, identical in both scripts: the `PLATFORMS`
dict of src/build.py lines 55-86 (which interpolates the pinned
`VERIBLE_TAG` into the f-string literals; see `PLATFORMS`) and the
`platforms` dict that `get_platform_info` of
src/.github/workflows/build.py lines 53-88 builds from its
`verible_release_tag` argument and indexes.  Dict lookup is an
`Option`-valued function: a key outside the dict is Python's `KeyError`,
modelled as `none`. -/
def PLATFORMS_at (tag : String) (platform_id : String) : Option PlatformInfo :=
  if platform_id = "darwin-arm64" then
    some ⟨"verible-" ++ tag ++ "-macOS", "tar.gz",
          "verible-" ++ tag ++ "-macOS", ["tar", "zxf"]⟩
  else if platform_id = "darwin-x86-64" then
    some ⟨"verible-" ++ tag ++ "-macOS", "tar.gz",
          "verible-" ++ tag ++ "-macOS", ["tar", "zxf"]⟩
  else if platform_id = "linux-x86-64" then
    some ⟨"verible-" ++ tag ++ "-linux-static-x86_64", "tar.gz",
          "verible-" ++ tag, ["tar", "zxf"]⟩
  else if platform_id = "linux-aarch64" then
    some ⟨"verible-" ++ tag ++ "-linux-static-arm64", "tar.gz",
          "verible-" ++ tag, ["tar", "zxf"]⟩
  else if platform_id = "windows-amd64" then
    some ⟨"verible-" ++ tag ++ "-win64", "zip",
          "verible-" ++ tag ++ "-win64", ["unzip"]⟩
  else
    none

/-- The `PLATFORMS` dict exactly as the source evaluates it, at the pinned tag. -/
def PLATFORMS : String → Option PlatformInfo := PLATFORMS_at VERIBLE_TAG

/-- The five platform identifiers that key the `PLATFORMS` dict. -/
def SUPPORTED_PLATFORM_IDS : List String :=
  ["darwin-arm64", "darwin-x86-64", "linux-x86-64", "linux-aarch64", "windows-amd64"]

/-- Embeds the package file name construction of src/build.py lines 132-140:
the parts list joined to a single string. -/
def package_filename (platform_id package_tag : String) : String :=
  String.join ["apio-verible", "-", platform_id, "-", package_tag, ".tar.gz"]

/-- Embeds the Verible archive file name, src/build.py lines 144-146. -/
def verible_fname (p : PlatformInfo) : String :=
  p.verible_base_filename ++ "." ++ p.verible_ext

/-- Embeds the download URL construction, src/build.py lines 150-157. -/
def verible_url (p : PlatformInfo) : String :=
  String.join ["https://github.com/chipsalliance/verible/releases/download", "/",
    VERIBLE_TAG, "/", verible_fname p]

/-- Embeds `is_windows = "windows" in args.platform_id`, src/build.py line 108;
Python's `in` on strings is contiguous-substring containment. -/
def is_windows (platform_id : String) : Bool :=
  decide ("windows".data <:+: platform_id.data)

/-- Embeds the copy destination of src/build.py line 194:
`dst = package_dir / "bin" if is_windows else package_dir`, with paths as
component lists. -/
def dst (platform_id : String) (package_dir : List String) : List String :=
  if is_windows platform_id then package_dir ++ ["bin"] else package_dir

/-- Abstract view of the scratch file system right after extraction: which
paths (component lists, relative to the upstream dir) are files and which
are directories. -/
structure FS where
  isFile : List String → Bool
  isDir : List String → Bool

/-- Embeds the post-extraction marker assertion of src/build.py lines 183-187:
for the Windows variant the marker is the file
`<wrapper>/verible-verilog-format.exe`, otherwise the directory
`<wrapper>/bin`. -/
def marker_check (fs : FS) (platform_id wrapper : String) : Bool :=
  if is_windows platform_id then fs.isFile [wrapper, "verible-verilog-format.exe"]
  else fs.isDir [wrapper, "bin"]

/-- The externally visible operations `main` performs after the marker
assertion, src/build.py lines 189-231. -/
inductive PipelineOp where
  | rsyncCopy (src dst : List String)
  | removeUpstream (wrapper : String)
  | writeBuildInfo (path : List String)
  | tarCompress (archive : List String)
  | removePackageDir (path : List String)
deriving DecidableEq, Repr

/-- Outcome of running the tail of `main`: the operations that executed, the
final archive path if one was created, and normal return versus an abort. -/
structure PipelineResult where
  ops : List PipelineOp
  created_archive : Option (List String)
  outcome : Except String Unit

/-- Embeds the control flow of src/build.py `main` from the marker assertion
(lines 183-187) through the final check (line 231): a failed Python `assert`
raises `AssertionError` and aborts the process, so nothing after it executes
and no archive is created; on success the copy, build-info write, compression
and cleanups run in order and the archive appears at
`_packages/<package_filename>`. -/
def pipeline_after_extract (fs : FS) (platform_id package_tag wrapper : String)
    (package_dir : List String) : PipelineResult :=
  if marker_check fs platform_id wrapper then
    { ops := [
        PipelineOp.rsyncCopy [wrapper] (dst platform_id package_dir),
        PipelineOp.removeUpstream wrapper,
        PipelineOp.writeBuildInfo (package_dir ++ ["BUILD-INFO"]),
        PipelineOp.tarCompress ["_packages", package_filename platform_id package_tag],
        PipelineOp.removePackageDir package_dir],
      created_archive := some ["_packages", package_filename platform_id package_tag],
      outcome := Except.ok () }
  else
    { ops := [], created_archive := none, outcome := Except.error "AssertionError" }

/-- Embeds src/build.py lines 202-206: the build info file is copied and the
two platform lines are appended to its original content. -/
def package_build_info (original : String) (platform_id : String) : String :=
  original ++ ("platform-id = " ++ platform_id ++ "\n")
    ++ ("verible-tag = " ++ VERIBLE_TAG ++ "\n")

/-- Embeds `package_tag = release_tag.replace("-", "")` of
src/.github/workflows/build.py line 115: replacing the single-character
pattern `-` by the empty string deletes every hyphen and alters nothing
else. -/
def json_package_tag (release_tag : String) : String :=
  String.mk (release_tag.data.filter (fun c => c != '-'))

/-- Embeds the package file name construction of
src/.github/workflows/build.py lines 138-146: the parts list joined, with
the package tag derived on line 115. -/
def json_package_filename (platform_id release_tag : String) : String :=
  String.join ["apio-verible", "-", platform_id, "-", json_package_tag release_tag, ".tgz"]

/-- Embeds the build-info update of src/.github/workflows/build.py lines
148-149: the two dict assignments `build_info["target-platform"] =
platform_id` and `build_info["file-name"] = package_filename` on the JSON
object, modelled as a map from keys to optional values (the later assignment
is the outer case; the two keys are distinct, so every other key is
untouched). -/
def json_build_info_update (build_info : String → Option String)
    (platform_id fname : String) : String → Option String :=
  fun k =>
    if k = "file-name" then some fname
    else if k = "target-platform" then some platform_id
    else build_info k

/-- Names bound at the top level of src/build.py when the `def run` statement
on line 34 executes: the imports of lines 6-12, the module assignments of
lines 15-31, and the builtins the annotation could reach. -/
def names_in_scope_at_run_def : List String :=
  ["os", "subprocess", "dataclass", "List", "argparse", "shutil", "Path",
   "parser", "args", "VERIBLE_TAG", "str", "bool", "print"]

/-- The free names of the annotation `Union[List[str], str]` on src/build.py
line 34, in Python's left-to-right evaluation order. -/
def run_annotation_names : List String := ["Union", "List", "str"]

/-- Embeds Python's evaluation of annotation expressions at `def` time: the
first name not bound in the enclosing scope raises `NameError`. -/
def eval_names (scope : List String) : List String → Except String Unit
  | [] => Except.ok ()
  | n :: rest =>
      if scope.contains n then eval_names scope rest
      else Except.error ("NameError: " ++ n)

/-- Embeds loading the src/build.py module up to and including the `def run`
statement on line 34 (the first statement whose evaluation can fail after the
imports and the argparse calls). -/
def load_run_def : Except String Unit :=
  eval_names names_in_scope_at_run_def run_annotation_names

/-- Embeds one full invocation of src/build.py: the module loads before
`main` runs, so a load error aborts with no pipeline operation executed. -/
def script_invocation (fs : FS) (platform_id package_tag wrapper : String)
    (package_dir : List String) : PipelineResult :=
  match load_run_def with
  | Except.error e => { ops := [], created_archive := none, outcome := Except.error e }
  | Except.ok _ => pipeline_after_extract fs platform_id package_tag wrapper package_dir

/-- Number of positions at which `pat` occurs as a contiguous sublist of `s`. -/
def countOcc (pat s : List Char) : Nat :=
  (List.range (s.length + 1)).countP (fun i => pat.isPrefixOf (s.drop i))

/-- The joined parts list of src/build.py lines 132-140 is the flat
concatenation of its six parts. -/
theorem package_filename_eq (platform_id package_tag : String) :
    package_filename platform_id package_tag =
      "apio-verible-" ++ platform_id ++ "-" ++ package_tag ++ ".tar.gz" := rfl

/-- The joined parts list of src/.github/workflows/build.py lines 138-146 is
the flat concatenation of its six parts. -/
theorem json_package_filename_eq (platform_id release_tag : String) :
    json_package_filename platform_id release_tag =
      "apio-verible-" ++ platform_id ++ "-" ++ json_package_tag release_tag ++ ".tgz" := rfl

/-- Suffixes of the same list are comparable, so a suffix `s` of `l` that is
incomparable with `t` rules `t` out as a suffix of `l`. -/
theorem suffix_excludes {l s t : List Char} (hs : s <:+ l)
    (h1 : ¬ (t <:+ s)) (h2 : ¬ (s <:+ t)) : ¬ (t <:+ l) := by
  intro ht
  rcases List.suffix_or_suffix_of_suffix ht hs with h | h
  · exact h1 h
  · exact h2 h

/-- C2: the registry is total over exactly the five supported identifiers:
each one looks up to a `PlatformInfo`, and any identifier outside the set
looks up to `none` (Python's `KeyError`); the lookup is a pure function, so
it has no side effects. -/
theorem c2_platform_registry_total :
    (∀ platform_id ∈ SUPPORTED_PLATFORM_IDS, (PLATFORMS platform_id).isSome = true) ∧
    (∀ platform_id, platform_id ∉ SUPPORTED_PLATFORM_IDS → PLATFORMS platform_id = none) := by
  refine ⟨by decide, ?_⟩
  intro platform_id h
  simp only [SUPPORTED_PLATFORM_IDS, List.mem_cons, List.not_mem_nil, or_false,
    not_or] at h
  obtain ⟨h1, h2, h3, h4, h5⟩ := h
  simp only [PLATFORMS, PLATFORMS_at, if_neg h1, if_neg h2, if_neg h3, if_neg h4, if_neg h5]

/-- Witness for C2 at the concrete identifiers `linux-x86-64` (supported) and
`riscv-unknown` (unsupported). -/
theorem c2_witness :
    (PLATFORMS "linux-x86-64").isSome = true ∧ PLATFORMS "riscv-unknown" = none :=
  ⟨c2_platform_registry_total.1 "linux-x86-64" (by decide),
   c2_platform_registry_total.2 "riscv-unknown" (by decide)⟩

/-- C3: the flat-text variant's file name is exactly
`apio-verible-` ++ platform_id ++ `-` ++ package_tag ++ `.tar.gz` with the
explicitly supplied package tag (src/build.py lines 132-140); the JSON
variant's file name (src/.github/workflows/build.py lines 138-146) is the
same concatenation with `.tgz` and a package tag equal to the release tag
with every hyphen removed and no other character altered (line 115), e.g.
`v1-2-3` ↦ `v123`. -/
theorem c3_filename_concatenation :
    (∀ platform_id package_tag, package_filename platform_id package_tag =
        "apio-verible-" ++ platform_id ++ "-" ++ package_tag ++ ".tar.gz") ∧
    (∀ platform_id release_tag, json_package_filename platform_id release_tag =
        "apio-verible-" ++ platform_id ++ "-" ++ json_package_tag release_tag ++ ".tgz") ∧
    (∀ release_tag, (json_package_tag release_tag).data =
        release_tag.data.filter (fun c => c != '-')) ∧
    json_package_tag "v1-2-3" = "v123" :=
  ⟨package_filename_eq, json_package_filename_eq, fun _ => rfl, by decide⟩

/-- Witness for C3 at concrete platform identifier and tags. -/
theorem c3_witness :
    package_filename "windows-amd64" "v0.1.2" =
      "apio-verible-" ++ "windows-amd64" ++ "-" ++ "v0.1.2" ++ ".tar.gz" :=
  c3_filename_concatenation.1 "windows-amd64" "v0.1.2"

/-- C4: the flat-text variant only appends the `platform-id` and
`verible-tag` lines to the build info file, leaving the original content an
unchanged prefix (src/build.py lines 202-206); the JSON-variant update
(src/.github/workflows/build.py lines 148-149) maps every key other than the
documented `target-platform` and `file-name` to its original value and sets
those two keys to the platform identifier and the computed package file
name. -/
theorem c4_build_info_merge :
    (∀ original platform_id, (package_build_info original platform_id).data =
        original.data ++ ("platform-id = " ++ platform_id ++ "\n"
          ++ ("verible-tag = " ++ VERIBLE_TAG ++ "\n")).data) ∧
    (∀ original platform_id,
        original.data <+: (package_build_info original platform_id).data) ∧
    (∀ info platform_id fname k, k ≠ "target-platform" → k ≠ "file-name" →
        json_build_info_update info platform_id fname k = info k) ∧
    (∀ info platform_id release_tag,
        json_build_info_update info platform_id
            (json_package_filename platform_id release_tag) "target-platform"
          = some platform_id ∧
        json_build_info_update info platform_id
            (json_package_filename platform_id release_tag) "file-name"
          = some (json_package_filename platform_id release_tag)) := by
  refine ⟨?_, ?_, ?_, fun _ _ _ => ⟨rfl, rfl⟩⟩
  · intro original platform_id
    simp only [package_build_info, String.data_append, List.append_assoc]
  · intro original platform_id
    simp only [package_build_info, String.data_append, List.append_assoc]
    exact List.prefix_append _ _
  · intro info platform_id fname k h1 h2
    simp only [json_build_info_update, if_neg h2, if_neg h1]

/-- Witness for C4: a key other than the two documented ones keeps its
original value. -/
theorem c4_witness :
    json_build_info_update (fun _ => some "orig") "linux-aarch64" "pkg.tgz" "release-tag"
      = some "orig" :=
  c4_build_info_merge.2.2.1 (fun _ => some "orig") "linux-aarch64" "pkg.tgz"
    "release-tag" (by decide) (by decide)

/-- C10: the two macOS identifiers map to identical `PlatformInfo` records
for every upstream tag, hence to the same archive file name and download
URL. -/
theorem c10_darwin_platforms_identical :
    ∀ tag, PLATFORMS_at tag "darwin-arm64" = PLATFORMS_at tag "darwin-x86-64" ∧
      (PLATFORMS_at tag "darwin-arm64").map verible_fname =
        (PLATFORMS_at tag "darwin-x86-64").map verible_fname ∧
      (PLATFORMS_at tag "darwin-arm64").map verible_url =
        (PLATFORMS_at tag "darwin-x86-64").map verible_url :=
  fun _ => ⟨rfl, rfl, rfl⟩

/-- Witness for C10 at the pinned tag. -/
theorem c10_witness :
    PLATFORMS_at VERIBLE_TAG "darwin-arm64" = PLATFORMS_at VERIBLE_TAG "darwin-x86-64" ∧
      (PLATFORMS_at VERIBLE_TAG "darwin-arm64").map verible_fname =
        (PLATFORMS_at VERIBLE_TAG "darwin-x86-64").map verible_fname ∧
      (PLATFORMS_at VERIBLE_TAG "darwin-arm64").map verible_url =
        (PLATFORMS_at VERIBLE_TAG "darwin-x86-64").map verible_url :=
  c10_darwin_platforms_identical VERIBLE_TAG

/-- C1 counterexample: in the flat-text variant `windows-amd64`'s configured
extension is `zip`, yet its file name does not end with `zip` (the script
always appends `.tar.gz`); in the JSON variant even `darwin-arm64`'s
configured extension `tar.gz` is not a suffix of its `.tgz` file name. -/
theorem c1_counterexample :
    ((PLATFORMS "windows-amd64").map PlatformInfo.verible_ext = some "zip" ∧
      ¬ ("zip".data <:+ (package_filename "windows-amd64" "v123").data)) ∧
    ((PLATFORMS "darwin-arm64").map PlatformInfo.verible_ext = some "tar.gz" ∧
      ¬ ("tar.gz".data <:+ (json_package_filename "darwin-arm64" "v1-2-3").data)) := by
  decide

/-- C1 (amended): for every supported identifier, every package tag and every
release tag, both variants' final file names start with
`apio-verible-<platform_id>-`; the flat-text variant's name ends with
`.tar.gz`, so it ends with the platform's configured extension exactly when
that extension is `tar.gz` (every platform except `windows-amd64`, whose
extension is `zip`); the JSON variant's name ends with `.tgz` and never ends
with the configured extension. -/
theorem c1_amended (platform_id package_tag release_tag : String)
    (hmem : platform_id ∈ SUPPORTED_PLATFORM_IDS) :
    ∃ p, PLATFORMS platform_id = some p ∧
      ("apio-verible-" ++ platform_id ++ "-").data <+:
        (package_filename platform_id package_tag).data ∧
      ".tar.gz".data <:+ (package_filename platform_id package_tag).data ∧
      (p.verible_ext.data <:+ (package_filename platform_id package_tag).data ↔
        p.verible_ext = "tar.gz") ∧
      ("apio-verible-" ++ platform_id ++ "-").data <+:
        (json_package_filename platform_id release_tag).data ∧
      ".tgz".data <:+ (json_package_filename platform_id release_tag).data ∧
      ¬ (p.verible_ext.data <:+ (json_package_filename platform_id release_tag).data) := by
  have hpre : ("apio-verible-" ++ platform_id ++ "-").data <+:
      (package_filename platform_id package_tag).data := by
    have hdata : (package_filename platform_id package_tag).data =
        ("apio-verible-" ++ platform_id ++ "-").data
          ++ (package_tag.data ++ ".tar.gz".data) := by
      rw [package_filename_eq]
      simp [String.data_append, List.append_assoc]
    rw [hdata]
    exact List.prefix_append _ _
  have hsuf : ".tar.gz".data <:+ (package_filename platform_id package_tag).data := by
    rw [package_filename_eq]
    simp only [String.data_append]
    exact List.suffix_append _ _
  have hsuf2 : "tar.gz".data <:+ (package_filename platform_id package_tag).data :=
    List.IsSuffix.trans (by decide) hsuf
  have hnot_zip : ¬ ("zip".data <:+ (package_filename platform_id package_tag).data) :=
    suffix_excludes hsuf (by decide) (by decide)
  have hprej : ("apio-verible-" ++ platform_id ++ "-").data <+:
      (json_package_filename platform_id release_tag).data := by
    have hdata : (json_package_filename platform_id release_tag).data =
        ("apio-verible-" ++ platform_id ++ "-").data
          ++ ((json_package_tag release_tag).data ++ ".tgz".data) := by
      rw [json_package_filename_eq]
      simp [String.data_append, List.append_assoc]
    rw [hdata]
    exact List.prefix_append _ _
  have hsufj : ".tgz".data <:+ (json_package_filename platform_id release_tag).data := by
    rw [json_package_filename_eq]
    simp only [String.data_append]
    exact List.suffix_append _ _
  have hnotj_tgz :
      ¬ ("tar.gz".data <:+ (json_package_filename platform_id release_tag).data) :=
    suffix_excludes hsufj (by decide) (by decide)
  have hnotj_zip :
      ¬ ("zip".data <:+ (json_package_filename platform_id release_tag).data) :=
    suffix_excludes hsufj (by decide) (by decide)
  simp only [SUPPORTED_PLATFORM_IDS, List.mem_cons, List.not_mem_nil, or_false] at hmem
  rcases hmem with rfl | rfl | rfl | rfl | rfl
  · exact ⟨_, rfl, hpre, hsuf, ⟨fun _ => rfl, fun _ => hsuf2⟩, hprej, hsufj, hnotj_tgz⟩
  · exact ⟨_, rfl, hpre, hsuf, ⟨fun _ => rfl, fun _ => hsuf2⟩, hprej, hsufj, hnotj_tgz⟩
  · exact ⟨_, rfl, hpre, hsuf, ⟨fun _ => rfl, fun _ => hsuf2⟩, hprej, hsufj, hnotj_tgz⟩
  · exact ⟨_, rfl, hpre, hsuf, ⟨fun _ => rfl, fun _ => hsuf2⟩, hprej, hsufj, hnotj_tgz⟩
  · exact ⟨_, rfl, hpre, hsuf,
      ⟨fun h => absurd h hnot_zip, fun h => absurd h (by decide)⟩, hprej, hsufj, hnotj_zip⟩

/-- Witness for C1 (amended) at `linux-x86-64` with package tag `v0.1` and
release tag `v1-2-3`. -/
theorem c1_witness :
    ∃ p, PLATFORMS "linux-x86-64" = some p ∧
      ("apio-verible-" ++ "linux-x86-64" ++ "-").data <+:
        (package_filename "linux-x86-64" "v0.1").data ∧
      ".tar.gz".data <:+ (package_filename "linux-x86-64" "v0.1").data ∧
      (p.verible_ext.data <:+ (package_filename "linux-x86-64" "v0.1").data ↔
        p.verible_ext = "tar.gz") ∧
      ("apio-verible-" ++ "linux-x86-64" ++ "-").data <+:
        (json_package_filename "linux-x86-64" "v1-2-3").data ∧
      ".tgz".data <:+ (json_package_filename "linux-x86-64" "v1-2-3").data ∧
      ¬ (p.verible_ext.data <:+ (json_package_filename "linux-x86-64" "v1-2-3").data) :=
  c1_amended "linux-x86-64" "v0.1" "v1-2-3" (by decide)

/-- C5 counterexample: for the upstream tag `e` (a perfectly formed input by
the claim's quantification over every version tag), the base file name of
`darwin-arm64` contains the tag three times, not exactly once. -/
theorem c5_counterexample :
    (PLATFORMS_at "e" "darwin-arm64").isSome = true ∧
    (PLATFORMS_at "e" "darwin-arm64").map
        (fun p => countOcc "e".data p.verible_base_filename.data) = some 3 ∧
    (PLATFORMS_at "e" "darwin-arm64").map
        (fun p => countOcc "e".data p.verible_base_filename.data) ≠ some 1 := by decide

/-- C5 (amended): for every supported identifier and every upstream tag the
resolved record embeds the tag at least once (as a contiguous substring) in
the base file name and in the wrapper directory name, embeds it exactly once
at the configured tag `v0.0-3862-g936dfb1d`, and the extraction command
matches the archive format: `zip` exactly for `unzip`, `tar.gz` exactly for
`tar zxf`. -/
theorem c5_amended (tag platform_id : String)
    (hmem : platform_id ∈ SUPPORTED_PLATFORM_IDS) :
    (∃ p, PLATFORMS_at tag platform_id = some p ∧
      tag.data <:+: p.verible_base_filename.data ∧
      tag.data <:+: p.verible_wrapper_dir.data ∧
      (p.verible_ext = "zip" ↔ p.unarchive_cmd = ["unzip"]) ∧
      (p.verible_ext = "tar.gz" ↔ p.unarchive_cmd = ["tar", "zxf"])) ∧
    (∃ q, PLATFORMS_at VERIBLE_TAG platform_id = some q ∧
      countOcc VERIBLE_TAG.data q.verible_base_filename.data = 1 ∧
      countOcc VERIBLE_TAG.data q.verible_wrapper_dir.data = 1) := by
  simp only [SUPPORTED_PLATFORM_IDS, List.mem_cons, List.not_mem_nil, or_false] at hmem
  rcases hmem with rfl | rfl | rfl | rfl | rfl
  · refine ⟨⟨_, rfl,
      ⟨"verible-".data, "-macOS".data, by simp only [String.data_append]⟩,
      ⟨"verible-".data, "-macOS".data, by simp only [String.data_append]⟩,
      ?_, ?_⟩, _, rfl, by decide, by decide⟩
    · show ("tar.gz" : String) = "zip" ↔ (["tar", "zxf"] : List String) = ["unzip"]
      decide
    · show ("tar.gz" : String) = "tar.gz" ↔ (["tar", "zxf"] : List String) = ["tar", "zxf"]
      decide
  · refine ⟨⟨_, rfl,
      ⟨"verible-".data, "-macOS".data, by simp only [String.data_append]⟩,
      ⟨"verible-".data, "-macOS".data, by simp only [String.data_append]⟩,
      ?_, ?_⟩, _, rfl, by decide, by decide⟩
    · show ("tar.gz" : String) = "zip" ↔ (["tar", "zxf"] : List String) = ["unzip"]
      decide
    · show ("tar.gz" : String) = "tar.gz" ↔ (["tar", "zxf"] : List String) = ["tar", "zxf"]
      decide
  · refine ⟨⟨_, rfl,
      ⟨"verible-".data, "-linux-static-x86_64".data, by simp only [String.data_append]⟩,
      ⟨"verible-".data, [], by simp only [String.data_append, List.append_nil]⟩,
      ?_, ?_⟩, _, rfl, by decide, by decide⟩
    · show ("tar.gz" : String) = "zip" ↔ (["tar", "zxf"] : List String) = ["unzip"]
      decide
    · show ("tar.gz" : String) = "tar.gz" ↔ (["tar", "zxf"] : List String) = ["tar", "zxf"]
      decide
  · refine ⟨⟨_, rfl,
      ⟨"verible-".data, "-linux-static-arm64".data, by simp only [String.data_append]⟩,
      ⟨"verible-".data, [], by simp only [String.data_append, List.append_nil]⟩,
      ?_, ?_⟩, _, rfl, by decide, by decide⟩
    · show ("tar.gz" : String) = "zip" ↔ (["tar", "zxf"] : List String) = ["unzip"]
      decide
    · show ("tar.gz" : String) = "tar.gz" ↔ (["tar", "zxf"] : List String) = ["tar", "zxf"]
      decide
  · refine ⟨⟨_, rfl,
      ⟨"verible-".data, "-win64".data, by simp only [String.data_append]⟩,
      ⟨"verible-".data, "-win64".data, by simp only [String.data_append]⟩,
      ?_, ?_⟩, _, rfl, by decide, by decide⟩
    · show ("zip" : String) = "zip" ↔ (["unzip"] : List String) = ["unzip"]
      decide
    · show ("zip" : String) = "tar.gz" ↔ (["unzip"] : List String) = ["tar", "zxf"]
      decide

/-- Witness for C5 (amended) at `darwin-x86-64` with an arbitrary concrete
tag. -/
theorem c5_witness :
    (∃ p, PLATFORMS_at "sometag" "darwin-x86-64" = some p ∧
      "sometag".data <:+: p.verible_base_filename.data ∧
      "sometag".data <:+: p.verible_wrapper_dir.data ∧
      (p.verible_ext = "zip" ↔ p.unarchive_cmd = ["unzip"]) ∧
      (p.verible_ext = "tar.gz" ↔ p.unarchive_cmd = ["tar", "zxf"])) ∧
    (∃ q, PLATFORMS_at VERIBLE_TAG "darwin-x86-64" = some q ∧
      countOcc VERIBLE_TAG.data q.verible_base_filename.data = 1 ∧
      countOcc VERIBLE_TAG.data q.verible_wrapper_dir.data = 1) :=
  c5_amended "sometag" "darwin-x86-64" (by decide)

/-- C6: the copy destination is the `bin` subdirectory of the package root
exactly when the platform identifier contains `windows`, which among the
supported identifiers holds exactly for `windows-amd64`; every other
supported platform copies directly into the package root. -/
theorem c6_dst_bin_iff_windows (platform_id : String)
    (hmem : platform_id ∈ SUPPORTED_PLATFORM_IDS) (package_dir : List String) :
    (dst platform_id package_dir = package_dir ++ ["bin"] ↔ is_windows platform_id = true) ∧
    (is_windows platform_id = true ↔ platform_id = "windows-amd64") ∧
    (platform_id ≠ "windows-amd64" → dst platform_id package_dir = package_dir) := by
  simp only [SUPPORTED_PLATFORM_IDS, List.mem_cons, List.not_mem_nil, or_false] at hmem
  have hbin : package_dir ≠ package_dir ++ ["bin"] := by simp
  rcases hmem with rfl | rfl | rfl | rfl | rfl
  · have hw : is_windows "darwin-arm64" = false := by decide
    exact ⟨by simp [dst, hw, hbin], by simp [hw], fun _ => by simp [dst, hw]⟩
  · have hw : is_windows "darwin-x86-64" = false := by decide
    exact ⟨by simp [dst, hw, hbin], by simp [hw], fun _ => by simp [dst, hw]⟩
  · have hw : is_windows "linux-x86-64" = false := by decide
    exact ⟨by simp [dst, hw, hbin], by simp [hw], fun _ => by simp [dst, hw]⟩
  · have hw : is_windows "linux-aarch64" = false := by decide
    exact ⟨by simp [dst, hw, hbin], by simp [hw], fun _ => by simp [dst, hw]⟩
  · have hw : is_windows "windows-amd64" = true := by decide
    exact ⟨by simp [dst, hw], by simp [hw], fun h => absurd rfl h⟩

/-- Witness for C6 at `linux-aarch64` with a concrete package directory. -/
theorem c6_witness :
    (dst "linux-aarch64" ["_packages", "linux-aarch64"] =
        ["_packages", "linux-aarch64"] ++ ["bin"] ↔ is_windows "linux-aarch64" = true) ∧
    (is_windows "linux-aarch64" = true ↔ "linux-aarch64" = "windows-amd64") ∧
    ("linux-aarch64" ≠ "windows-amd64" →
      dst "linux-aarch64" ["_packages", "linux-aarch64"] = ["_packages", "linux-aarch64"]) :=
  c6_dst_bin_iff_windows "linux-aarch64" (by decide) ["_packages", "linux-aarch64"]

/-- C7: the post-extraction assertion checks exactly one platform-specific
marker — the file `<wrapper>/verible-verilog-format.exe` when the identifier
contains `windows`, the directory `<wrapper>/bin` otherwise — and when the
marker is absent the pipeline ends with the fatal `AssertionError` abort, not
a recoverable outcome. -/
theorem c7_marker_assertion (fs : FS) (platform_id package_tag wrapper : String)
    (package_dir : List String) :
    (is_windows platform_id = true →
      marker_check fs platform_id wrapper =
        fs.isFile [wrapper, "verible-verilog-format.exe"]) ∧
    (is_windows platform_id = false →
      marker_check fs platform_id wrapper = fs.isDir [wrapper, "bin"]) ∧
    (marker_check fs platform_id wrapper = false →
      (pipeline_after_extract fs platform_id package_tag wrapper package_dir).outcome =
        Except.error "AssertionError") :=
  ⟨fun h => by simp [marker_check, h],
   fun h => by simp [marker_check, h],
   fun h => by simp [pipeline_after_extract, h]⟩

/-- Witness for C7 on an empty file system at `linux-x86-64`. -/
theorem c7_witness :
    (is_windows "linux-x86-64" = true →
      marker_check (FS.mk (fun _ => false) (fun _ => false)) "linux-x86-64" "w" =
        (FS.mk (fun _ => false) (fun _ => false)).isFile
          ["w", "verible-verilog-format.exe"]) ∧
    (is_windows "linux-x86-64" = false →
      marker_check (FS.mk (fun _ => false) (fun _ => false)) "linux-x86-64" "w" =
        (FS.mk (fun _ => false) (fun _ => false)).isDir ["w", "bin"]) ∧
    (marker_check (FS.mk (fun _ => false) (fun _ => false)) "linux-x86-64" "w" = false →
      (pipeline_after_extract (FS.mk (fun _ => false) (fun _ => false)) "linux-x86-64"
          "tag0" "w" ["_packages", "linux-x86-64"]).outcome =
        Except.error "AssertionError") :=
  c7_marker_assertion (FS.mk (fun _ => false) (fun _ => false)) "linux-x86-64" "tag0" "w"
    ["_packages", "linux-x86-64"]

/-- C8: when extraction did not produce the expected marker the run aborts at
the assertion: no later operation executes (in particular no copy into the
package directory) and no archive is created at
`_packages/<package_filename>`. -/
theorem c8_abort_before_repackage (fs : FS) (platform_id package_tag wrapper : String)
    (package_dir : List String) (h : marker_check fs platform_id wrapper = false) :
    (pipeline_after_extract fs platform_id package_tag wrapper package_dir).ops = [] ∧
    (pipeline_after_extract fs platform_id package_tag wrapper package_dir).created_archive
      = none ∧
    (pipeline_after_extract fs platform_id package_tag wrapper package_dir).outcome =
      Except.error "AssertionError" := by
  simp [pipeline_after_extract, h]

/-- Witness for C8: a file system with no `bin` directory under the wrapper,
for the non-Windows platform `linux-x86-64`. -/
theorem c8_witness :
    (pipeline_after_extract (FS.mk (fun _ => false) (fun _ => false)) "linux-x86-64"
        "tag0" "w" ["_packages", "linux-x86-64"]).ops = [] ∧
    (pipeline_after_extract (FS.mk (fun _ => false) (fun _ => false)) "linux-x86-64"
        "tag0" "w" ["_packages", "linux-x86-64"]).created_archive = none ∧
    (pipeline_after_extract (FS.mk (fun _ => false) (fun _ => false)) "linux-x86-64"
        "tag0" "w" ["_packages", "linux-x86-64"]).outcome =
      Except.error "AssertionError" :=
  c8_abort_before_repackage (FS.mk (fun _ => false) (fun _ => false)) "linux-x86-64"
    "tag0" "w" ["_packages", "linux-x86-64"] (by decide)

/-- C9: the name `Union` in the annotation of `run` (src/build.py line 34) is
not among the names bound at module level (only `List` is imported from
`typing`), so loading the module raises `NameError` at the `def run`
statement and every invocation aborts with no pipeline operation executed and
no archive created. -/
theorem c9_union_name_error (fs : FS) (platform_id package_tag wrapper : String)
    (package_dir : List String) :
    load_run_def = Except.error "NameError: Union" ∧
    "Union" ∉ names_in_scope_at_run_def ∧
    (script_invocation fs platform_id package_tag wrapper package_dir).ops = [] ∧
    (script_invocation fs platform_id package_tag wrapper package_dir).created_archive
      = none ∧
    (script_invocation fs platform_id package_tag wrapper package_dir).outcome =
      Except.error "NameError: Union" :=
  ⟨rfl, by decide, rfl, rfl, rfl⟩

/-- Witness for C9 at concrete arguments. -/
theorem c9_witness :
    load_run_def = Except.error "NameError: Union" ∧
    "Union" ∉ names_in_scope_at_run_def ∧
    (script_invocation (FS.mk (fun _ => true) (fun _ => true)) "linux-x86-64" "tag0" "w"
        ["_packages", "linux-x86-64"]).ops = [] ∧
    (script_invocation (FS.mk (fun _ => true) (fun _ => true)) "linux-x86-64" "tag0" "w"
        ["_packages", "linux-x86-64"]).created_archive = none ∧
    (script_invocation (FS.mk (fun _ => true) (fun _ => true)) "linux-x86-64" "tag0" "w"
        ["_packages", "linux-x86-64"]).outcome = Except.error "NameError: Union" :=
  c9_union_name_error (FS.mk (fun _ => true) (fun _ => true)) "linux-x86-64" "tag0" "w"
    ["_packages", "linux-x86-64"]

end ToolsVerible
